import Mathlib

/-
Verification of the sample-search CLI (src/main.py).

The script is a single asyncio program: `braille_spinner` (lines 47-58)
repaints a status line until a stop event is set, `search_song`
(lines 61-109) composes a query, appends it to the module-level chat,
runs the blocking SDK call in an executor while the spinner animates,
and renders either a success panel or an error panel; `main`
(lines 112-156) collects trimmed inputs and refuses to search when both
are empty.

The embedding below is a shallow one: terminal writes and chat
mutations become events in a trace, the external call's outcome is an
`Except String String` parameter (the SDK call either returns a
response content string or raises, which we record as the error's
string form), and the number of spinner frames rendered while the call
is in flight is a parameter `ticks` standing for the scheduler's
freedom.  asyncio is single-threaded and cooperative, so the events of
one run form a single linear trace.
-/

/-- Messages held by the module-level chat object (`client.chat.create`
followed by `chat.append(system(...))` at lines 31-44, and
`chat.append(user(query))` at line 81). -/
inductive Msg where
  | system (text : String)
  | user (text : String)
deriving DecidableEq, Repr

/-- The system prompt appended at lines 38-44 (Python adjacent string
literals concatenate without separators). -/
def system_prompt : String :=
  "Check WhoSampled.com for the song provided.If no information found on WhoSampled, broaden the search to the rest of the web.First, output the producer(s) of the track in the format: \x27Producer(s): \x27Then, return the list of samples\x27 original works in bullet points.Provide a youtube link associated to each of the original\x27s songs."

/-- The chat state after module initialization: just the system prompt. -/
def chat0 : List Msg := [Msg.system system_prompt]

/-- Observable events of one run: terminal writes and chat mutations,
in program order. -/
inductive Ev where
  | printBlank
  | clearScreen
  | welcomePanel
  | promptInstructions
  | warningPanel
  | spinnerFrame (idx : Nat)
  | stopSet
  | spinnerClear
  | spinnerAwaited
  | chatAppendUser (query : String)
  | callReturned
  | callRaised (msg : String)
  | resultsPanel (content : String)
  | errorPanel (msg : String)
deriving DecidableEq, Repr

/-- The ten braille glyphs of the spinner (line 49). -/
def braille_chars : List String :=
  ["⠋", "⠙", "⠹", "⠸", "⠼", "⠴", "⠦", "⠧", "⠇", "⠏"]

/-- The label rendered before the glyph on every spinner frame (line 53). -/
def searching_label : String := " Searching for samples "

/-- The text of one rendered spinner frame: label plus the glyph at
index `idx` (lines 52-55). -/
def spinner_frame_text (idx : Nat) : String :=
  searching_label ++ braille_chars.getD idx ""

/-- The blank overwrite printed after the loop exits:
`console.print(' ' * 50, end='\r')` at line 58. -/
def clear_text : String := String.mk (List.replicate 50 (Char.ofNat 32))

/-- Frame index sequence of the spinner loop: starts at 0, advances by
`(idx + 1) % len(braille_chars)` each tick (lines 50 and 56). -/
def idxAt : Nat → Nat
  | 0 => 0
  | n + 1 => (idxAt n + 1) % braille_chars.length

/-- The frames the spinner loop renders in `n` iterations starting from
frame index `idx` (lines 51-57): one `spinnerFrame` event per
iteration, index advancing modulo the glyph count. -/
def spinnerFrames : Nat → Nat → List Ev
  | 0, _ => []
  | n + 1, idx => Ev.spinnerFrame idx :: spinnerFrames n ((idx + 1) % braille_chars.length)

/-- One complete run of `braille_spinner` (lines 47-58) in which the
loop body executes `ticks` times before the stop event is observed:
the rendered frames, then the blank line-clear, then return. -/
def braille_spinner_run (ticks : Nat) : List Ev :=
  spinnerFrames ticks 0 ++ [Ev.spinnerClear]

/-- The query composition of `search_song` (lines 64-69).  Python's
`if not artist_name` / `elif not song_name` tests emptiness, and the
later assignments override the first, so: artist empty gives the
Song-only template (even when the song is also empty), otherwise song
empty gives the Artist-only template, otherwise the combined one. -/
def composeQuery (song_name artist_name : String) : String :=
  if artist_name = "" then "Song: " ++ song_name
  else if song_name = "" then "Artist: " ++ artist_name
  else "Song: " ++ song_name ++ ", Artist: " ++ artist_name

/-- Trace and final chat of one `search_song` call (lines 61-109).

Program order inside the `try` block: `console.print()` (line 71),
stop event created, spinner task created (it first runs when the
coroutine next suspends), `chat.append(user(query))` (line 81,
synchronous, so it precedes every spinner frame), then
`await loop.run_in_executor(None, chat.sample)` (line 82) during which
the spinner renders `ticks` frames.

On normal return: `stop_event.set()` (line 85), `await spinner_task`
(line 86, the spinner observes the set event, prints its blank clear
and finishes), then blank line, results panel, blank line
(lines 89-98).

On a raised exception the handler (lines 100-109) prints blank line,
error panel, blank line.  It does NOT set the stop event and does NOT
await the spinner task, so no `stopSet`, `spinnerClear` or
`spinnerAwaited` event occurs on that path; the still-pending spinner
task renders no further frame because the handler and the remainder of
`main` never suspend, and the run loop then shuts down.

The appended user message stays in the chat on both paths. -/
def search_song (song_name artist_name : String) (outcome : Except String String)
    (ticks : Nat) (chat : List Msg) : List Ev × List Msg :=
  let query := composeQuery song_name artist_name
  let tryPrefix : List Ev :=
    [Ev.printBlank, Ev.chatAppendUser query] ++ spinnerFrames ticks 0
  match outcome with
  | Except.ok response =>
      (tryPrefix ++
        [Ev.callReturned, Ev.stopSet, Ev.spinnerClear, Ev.spinnerAwaited,
         Ev.printBlank, Ev.resultsPanel response, Ev.printBlank],
       chat ++ [Msg.user query])
  | Except.error e =>
      (tryPrefix ++
        [Ev.callRaised e, Ev.printBlank, Ev.errorPanel e, Ev.printBlank],
       chat ++ [Msg.user query])

/-- Repeated invocation of `search_song` with an always-raising external
call, threading the module-level chat through: outcome of running the
failure path `n` times. -/
def search_song_repeat (song_name artist_name errMsg : String) (ticks : Nat) :
    Nat → List Msg → List Ev × List Msg
  | 0, chat => ([], chat)
  | n + 1, chat =>
      let first := search_song song_name artist_name (Except.error errMsg) ticks chat
      let rest := search_song_repeat song_name artist_name errMsg ticks n first.2
      (first.1 ++ rest.1, rest.2)

/-- The fixed banner `main` prints before prompting (lines 115-139). -/
def main_header : List Ev :=
  [Ev.clearScreen, Ev.welcomePanel, Ev.printBlank, Ev.promptInstructions, Ev.printBlank]

/-- Python str.strip() with no argument: remove leading and trailing
whitespace (modelled with Char.isWhitespace), as applied to both prompt
answers at lines 142-143. -/
def pyStrip (s : String) : String :=
  String.mk (((s.data.dropWhile Char.isWhitespace).reverse.dropWhile
    Char.isWhitespace).reverse)

/-- Trace and final chat of `main` (lines 112-156) given the two raw
prompt answers.  Both are stripped (lines 142-143); if both are empty
the warning panel is shown and `main` returns without calling
`search_song` (lines 145-154); otherwise `search_song` runs. -/
def main_run (raw_song raw_artist : String) (outcome : Except String String)
    (ticks : Nat) (chat : List Msg) : List Ev × List Msg :=
  let song_name := pyStrip raw_song
  let artist_name := pyStrip raw_artist
  if song_name = "" ∧ artist_name = "" then
    (main_header ++ [Ev.printBlank, Ev.warningPanel, Ev.printBlank], chat)
  else
    let r := search_song song_name artist_name outcome ticks chat
    (main_header ++ r.1, r.2)

/-- Event classifiers used to state ordering properties over traces. -/
def isCallDone : Ev → Bool
  | Ev.callReturned => true
  | Ev.callRaised _ => true
  | _ => false

def isStopSet : Ev → Bool
  | Ev.stopSet => true
  | _ => false

def isUserAppend : Ev → Bool
  | Ev.chatAppendUser _ => true
  | _ => false

def isErrorPanel : Ev → Bool
  | Ev.errorPanel _ => true
  | _ => false

/-- Scan deciding that every event satisfying `laterE` is strictly
preceded in the list by some event satisfying `earlierE`. -/
def precededBy (laterE earlierE : Ev → Bool) : Bool → List Ev → Bool
  | _, [] => true
  | seen, e :: rest =>
      (!laterE e || seen) && precededBy laterE earlierE (seen || earlierE e) rest

/-- Spinner loop as a step machine over a time-indexed stop signal
`sig` (true when `stop_event.is_set()` holds at that check,
lines 51-58): while running, a set signal moves the loop to its
terminal line-clearing state, an unset one advances the frame index
modulo the glyph count. -/
inductive SpinState where
  | running (idx : Nat)
  | cleared
deriving DecidableEq, Repr

def spinStep (stop : Bool) : SpinState → SpinState
  | SpinState.running idx =>
      if stop then SpinState.cleared
      else SpinState.running ((idx + 1) % braille_chars.length)
  | SpinState.cleared => SpinState.cleared

/-- State of the spinner loop at the start of check `t`, starting from
frame index 0 (line 50). -/
def spinnerAt (sig : Nat → Bool) : Nat → SpinState
  | 0 => SpinState.running 0
  | t + 1 => spinStep (sig t) (spinnerAt sig t)

/-- Whether the loop body renders a frame at check `t`: it does exactly
when the loop is still running and the signal is unset there. -/
def rendersAt (sig : Nat → Bool) (t : Nat) : Bool :=
  match spinnerAt sig t with
  | SpinState.running _ => !sig t
  | SpinState.cleared => false

/- Helper lemmas. -/

theorem braille_chars_length : braille_chars.length = 10 := rfl

theorem spinnerFrames_shape (n idx : Nat) :
    ∀ e ∈ spinnerFrames n idx, ∃ i, e = Ev.spinnerFrame i := by
  induction n generalizing idx with
  | zero => intro e he; simp [spinnerFrames] at he
  | succ n ih =>
      intro e he
      simp only [spinnerFrames, List.mem_cons] at he
      rcases he with h | h
      · exact ⟨idx, h⟩
      · exact ih _ e h

theorem spinnerFrames_idxAt (n : Nat) :
    ∀ t, spinnerFrames n (idxAt t) =
      (List.range n).map (fun k => Ev.spinnerFrame (idxAt (t + k))) := by
  induction n with
  | zero => intro t; simp [spinnerFrames]
  | succ n ih =>
      intro t
      have h1 : spinnerFrames (n + 1) (idxAt t)
          = Ev.spinnerFrame (idxAt t) :: spinnerFrames n (idxAt (t + 1)) := by
        simp [spinnerFrames, idxAt]
      rw [h1, ih (t + 1), List.range_succ_eq_map]
      simp only [List.map_cons, List.map_map, Nat.add_zero]
      congr 1
      apply List.map_congr_left
      intro k _
      simp only [Function.comp_apply]
      congr 2
      omega

theorem precededBy_append_neutral (laterE earlierE : Ev → Bool) (l : List Ev)
    (h : ∀ e ∈ l, laterE e = false ∧ earlierE e = false) (seen : Bool) (rest : List Ev) :
    precededBy laterE earlierE seen (l ++ rest) = precededBy laterE earlierE seen rest := by
  induction l with
  | nil => simp
  | cons e l ih =>
      have he := h e (by simp)
      simp only [List.cons_append, precededBy, he.1, he.2, Bool.not_false, Bool.true_or,
        Bool.or_false, Bool.true_and]
      exact ih (fun e' he' => h e' (by simp [he']))

theorem countP_spinnerFrames (p : Ev → Bool) (hp : ∀ i, p (Ev.spinnerFrame i) = false)
    (n idx : Nat) : (spinnerFrames n idx).countP p = 0 := by
  rw [List.countP_eq_zero]
  intro e he
  obtain ⟨i, rfl⟩ := spinnerFrames_shape n idx e he
  simp [hp]

theorem idxAt_lt (n : Nat) : idxAt n < braille_chars.length := by
  cases n with
  | zero => decide
  | succ n =>
      simp only [idxAt]
      exact Nat.mod_lt _ (by decide)

theorem search_song_snd (song artist : String) (outcome : Except String String)
    (ticks : Nat) (chat : List Msg) :
    (search_song song artist outcome ticks chat).2 =
      chat ++ [Msg.user (composeQuery song artist)] := by
  cases outcome <;> rfl

/-- C2: for every (song, artist) pair with at least one field non-empty,
the composed query follows the three-branch template rule: both
non-empty gives "Song: {song}, Artist: {artist}", song empty and artist
non-empty gives "Artist: {artist}", artist empty and song non-empty
gives "Song: {song}". -/
theorem composeQuery_template_branches (song artist : String) :
    (song ≠ "" → artist ≠ "" →
      composeQuery song artist = "Song: " ++ song ++ ", Artist: " ++ artist) ∧
    (song = "" → artist ≠ "" → composeQuery song artist = "Artist: " ++ artist) ∧
    (artist = "" → song ≠ "" → composeQuery song artist = "Song: " ++ song) := by
  refine ⟨?_, ?_, ?_⟩
  · intro hs ha; simp [composeQuery, hs, ha]
  · intro hs ha; simp [composeQuery, hs, ha]
  · intro ha _; simp [composeQuery, ha]

/-- Witness for C2 at the spec's own example pair. -/
theorem composeQuery_template_branches_check :
    composeQuery "Blinding Lights" "The Weeknd" =
      "Song: " ++ "Blinding Lights" ++ ", Artist: " ++ "The Weeknd" :=
  (composeQuery_template_branches "Blinding Lights" "The Weeknd").1 (by decide) (by decide)

/-- C9: with both fields empty the empty-artist branch wins, the
composed query degenerates to "Song: ", and `search_song` still appends
that query to the chat and issues the external call. -/
theorem composeQuery_both_empty_degenerate :
    composeQuery "" "" = "Song: " ∧
    ∀ (outcome : Except String String) (ticks : Nat) (chat : List Msg),
      Ev.chatAppendUser "Song: " ∈ (search_song "" "" outcome ticks chat).1 ∧
      ∃ e ∈ (search_song "" "" outcome ticks chat).1, isCallDone e = true := by
  refine ⟨by decide, ?_⟩
  intro outcome ticks chat
  cases outcome with
  | ok r =>
      refine ⟨by simp [search_song, composeQuery], ⟨Ev.callReturned, by simp [search_song], rfl⟩⟩
  | error e =>
      refine ⟨by simp [search_song, composeQuery], ⟨Ev.callRaised e, by simp [search_song], rfl⟩⟩

/-- C5: the spinner's frame index stays within the 10-element glyph
list: it starts at 0, advances by one modulo the glyph count on each
tick, the indexing is always in bounds, and the frames the loop renders
are exactly the glyphs at those indices. -/
theorem spinner_index_in_bounds :
    (∀ n, idxAt n < braille_chars.length ∧
      idxAt (n + 1) = (idxAt n + 1) % braille_chars.length ∧
      (braille_chars.get? (idxAt n)).isSome = true) ∧
    ∀ ticks, spinnerFrames ticks 0 =
      (List.range ticks).map (fun t => Ev.spinnerFrame (idxAt t)) := by
  constructor
  · intro n
    refine ⟨idxAt_lt n, rfl, ?_⟩
    rw [List.get?_eq_get (idxAt_lt n)]
    rfl
  · intro ticks
    have h := spinnerFrames_idxAt ticks 0
    simp only [Nat.zero_add] at h
    exact h

/-- C7: when the spinner loop exits it overwrites the status line with
a run of 50 blank characters, which is at least as wide as the longest
text it ever renders (the label plus one glyph), and this blank-clear
is the last thing the spinner does before returning. -/
theorem spinner_clear_covers_frames (ticks : Nat) :
    (braille_spinner_run ticks).getLast? = some Ev.spinnerClear ∧
    clear_text.toList = List.replicate 50 (Char.ofNat 32) ∧
    ∀ i, i < braille_chars.length → (spinner_frame_text i).length ≤ clear_text.length := by
  refine ⟨?_, rfl, ?_⟩
  · rw [braille_spinner_run, List.getLast?_concat]
  · intro i hi
    have h10 : i < 10 := by simpa [braille_chars] using hi
    interval_cases i <;> decide

/-- Witness for C7 at a concrete run length and frame index. -/
theorem spinner_clear_covers_frames_check :
    (braille_spinner_run 2).getLast? = some Ev.spinnerClear ∧
    (spinner_frame_text 0).length ≤ clear_text.length :=
  ⟨(spinner_clear_covers_frames 2).1,
   (spinner_clear_covers_frames 2).2.2 0 (by decide)⟩

/-- C6: in every `search_song` trace, any occurrence of the stop-signal
set is strictly preceded by the completion (return or raise) of the
blocking external call: the signal is never set before the call
completes. -/
theorem stop_set_only_after_call (song artist : String) (outcome : Except String String)
    (ticks : Nat) (chat : List Msg) :
    precededBy isStopSet isCallDone false (search_song song artist outcome ticks chat).1 = true := by
  have hneutral : ∀ e ∈ Ev.printBlank ::
      Ev.chatAppendUser (composeQuery song artist) :: spinnerFrames ticks 0,
      isStopSet e = false ∧ isCallDone e = false := by
    intro e he
    simp only [List.mem_cons] at he
    rcases he with rfl | rfl | h
    · exact ⟨rfl, rfl⟩
    · exact ⟨rfl, rfl⟩
    · obtain ⟨i, rfl⟩ := spinnerFrames_shape ticks 0 e h
      exact ⟨rfl, rfl⟩
  cases outcome with
  | ok r =>
      show precededBy isStopSet isCallDone false
        ((Ev.printBlank :: Ev.chatAppendUser (composeQuery song artist) ::
            spinnerFrames ticks 0) ++
          [Ev.callReturned, Ev.stopSet, Ev.spinnerClear, Ev.spinnerAwaited,
           Ev.printBlank, Ev.resultsPanel r, Ev.printBlank]) = true
      rw [precededBy_append_neutral _ _ _ hneutral]
      rfl
  | error e =>
      show precededBy isStopSet isCallDone false
        ((Ev.printBlank :: Ev.chatAppendUser (composeQuery song artist) ::
            spinnerFrames ticks 0) ++
          [Ev.callRaised e, Ev.printBlank, Ev.errorPanel e, Ev.printBlank]) = true
      rw [precededBy_append_neutral _ _ _ hneutral]
      rfl

theorem search_song_error_countP (song artist e : String) (ticks : Nat) (chat : List Msg) :
    (search_song song artist (Except.error e) ticks chat).1.countP isErrorPanel = 1 := by
  have hframes := countP_spinnerFrames isErrorPanel (fun i => rfl) ticks 0
  show ((Ev.printBlank :: Ev.chatAppendUser (composeQuery song artist) ::
      spinnerFrames ticks 0) ++
    [Ev.callRaised e, Ev.printBlank, Ev.errorPanel e, Ev.printBlank]).countP isErrorPanel = 1
  simp [List.countP_cons, List.countP_append, hframes, isErrorPanel]

/-- C3: every failure of the external call is absorbed inside
`search_song` (the embedding returns a trace totally, with no escaping
exception value) and routed to the error panel; running the failure
path N times yields exactly N error displays. -/
theorem errors_caught_and_displayed (song artist e : String) (ticks : Nat)
    (chat : List Msg) (N : Nat) :
    (search_song song artist (Except.error e) ticks chat).1.countP isErrorPanel = 1 ∧
    Ev.errorPanel e ∈ (search_song song artist (Except.error e) ticks chat).1 ∧
    (search_song_repeat song artist e ticks N chat).1.countP isErrorPanel = N := by
  refine ⟨search_song_error_countP song artist e ticks chat, ?_, ?_⟩
  · show Ev.errorPanel e ∈ (Ev.printBlank :: Ev.chatAppendUser (composeQuery song artist) ::
        spinnerFrames ticks 0) ++
      [Ev.callRaised e, Ev.printBlank, Ev.errorPanel e, Ev.printBlank]
    simp
  · induction N generalizing chat with
    | zero => rfl
    | succ n ih =>
        show ((search_song song artist (Except.error e) ticks chat).1 ++
          (search_song_repeat song artist e ticks n
            (search_song song artist (Except.error e) ticks chat).2).1).countP isErrorPanel
          = n + 1
        rw [List.countP_append, search_song_error_countP, ih]
        omega

/-- C10: every `search_song` invocation appends the composed user query
to the chat, the append strictly precedes the external call in the
trace, the appended message survives failure (the final chat is the old
chat plus the query on both outcome paths), and N repeated failing
invocations grow the chat by exactly N messages. -/
theorem chat_append_user_monotone (song artist : String) (outcome : Except String String)
    (ticks : Nat) (chat : List Msg) :
    (search_song song artist outcome ticks chat).2 =
      chat ++ [Msg.user (composeQuery song artist)] ∧
    precededBy isCallDone isUserAppend false (search_song song artist outcome ticks chat).1 = true ∧
    ∀ e N, (search_song_repeat song artist e ticks N chat).2.length = chat.length + N := by
  have hneutral : ∀ ev ∈ spinnerFrames ticks 0,
      isCallDone ev = false ∧ isUserAppend ev = false := by
    intro ev hev
    obtain ⟨i, rfl⟩ := spinnerFrames_shape ticks 0 ev hev
    exact ⟨rfl, rfl⟩
  refine ⟨search_song_snd song artist outcome ticks chat, ?_, ?_⟩
  · cases outcome with
    | ok r =>
        show precededBy isCallDone isUserAppend true (spinnerFrames ticks 0 ++
          [Ev.callReturned, Ev.stopSet, Ev.spinnerClear, Ev.spinnerAwaited,
           Ev.printBlank, Ev.resultsPanel r, Ev.printBlank]) = true
        rw [precededBy_append_neutral _ _ _ hneutral]
        rfl
    | error e =>
        show precededBy isCallDone isUserAppend true (spinnerFrames ticks 0 ++
          [Ev.callRaised e, Ev.printBlank, Ev.errorPanel e, Ev.printBlank]) = true
        rw [precededBy_append_neutral _ _ _ hneutral]
        rfl
  · intro e N
    induction N generalizing chat with
    | zero => rfl
    | succ n ih =>
        show (search_song_repeat song artist e ticks n
          (search_song song artist (Except.error e) ticks chat).2).2.length = chat.length + (n + 1)
        rw [ih, search_song_snd]
        simp
        omega

/-- C4: when both prompt answers are empty after trimming, `main` shows
the warning panel and returns: no user message is appended, no
call-completion event ever occurs, and the chat is untouched. -/
theorem main_empty_inputs_no_call (raw_song raw_artist : String)
    (outcome : Except String String) (ticks : Nat) (chat : List Msg)
    (hs : pyStrip raw_song = "") (ha : pyStrip raw_artist = "") :
    main_run raw_song raw_artist outcome ticks chat =
      (main_header ++ [Ev.printBlank, Ev.warningPanel, Ev.printBlank], chat) ∧
    (∀ q, Ev.chatAppendUser q ∉ (main_run raw_song raw_artist outcome ticks chat).1) ∧
    (∀ e ∈ (main_run raw_song raw_artist outcome ticks chat).1, isCallDone e = false) := by
  have hmain : main_run raw_song raw_artist outcome ticks chat =
      (main_header ++ [Ev.printBlank, Ev.warningPanel, Ev.printBlank], chat) := by
    simp [main_run, hs, ha]
  refine ⟨hmain, ?_, ?_⟩
  · intro q
    rw [hmain]
    simp [main_header]
  · intro e he
    rw [hmain] at he
    simp [main_header] at he
    rcases he with rfl | rfl | rfl | rfl | rfl | rfl | rfl | rfl <;> rfl

/-- Witness for C4 at concrete whitespace-only inputs. -/
theorem main_empty_inputs_no_call_check :
    main_run " " "" (Except.ok "resp") 0 chat0 =
      (main_header ++ [Ev.printBlank, Ev.warningPanel, Ev.printBlank], chat0) :=
  (main_empty_inputs_no_call " " "" (Except.ok "resp") 0 chat0 (by decide) (by decide)).1

/-- C8: once the stop signal is set (and, being monotone, stays set),
the spinner loop is in its terminal cleared state from the very next
check on, and no frame at all is rendered at or after the check where
the signal is first seen set — so the loop terminates and proceeds to
the line-clearing step. -/
theorem spinner_stops_after_signal (sig : Nat → Bool)
    (mono : ∀ t u, t ≤ u → sig t = true → sig u = true)
    (T : Nat) (hT : sig T = true) :
    (∀ u, T < u → spinnerAt sig u = SpinState.cleared) ∧
    (∀ u, T ≤ u → rendersAt sig u = false) := by
  have hsig : ∀ u, T ≤ u → sig u = true := fun u hu => mono T u hu hT
  constructor
  · intro u hu
    induction u with
    | zero => omega
    | succ v ih =>
        rcases Nat.lt_or_ge T v with h | h
        · have hv := ih h
          simp only [spinnerAt, hv, spinStep]
        · have hv : v = T := by omega
          subst hv
          cases h1 : spinnerAt sig v with
          | running idx => simp only [spinnerAt, h1, hT, spinStep, if_true]
          | cleared => simp only [spinnerAt, h1, spinStep]
  · intro u hu
    have h2 := hsig u hu
    rw [rendersAt]
    cases h1 : spinnerAt sig u with
    | running idx => simp [h2]
    | cleared => simp

/-- Witness for C8 with the signal set from the start. -/
theorem spinner_stops_after_signal_check :
    spinnerAt (fun _ => true) 1 = SpinState.cleared :=
  (spinner_stops_after_signal (fun _ => true) (fun _ _ _ h => h) 0 rfl).1 1 (by decide)

/-- The trace of a `search_song` call whose external call raises, at a
concrete failing input. -/
def error_run_trace : List Ev :=
  (search_song "Blinding Lights" "The Weeknd" (Except.error "connection reset") 3 chat0).1

/-- C1: the claimed guarantee fails on the exception path.  At a
concrete failing input where the external call raises, the error panel
is written while the stop signal was never set, the spinner line was
never blank-cleared, and the spinner task was never awaited: the
except handler (lines 100-109) bypasses the stop/await of lines 85-86,
leaving the spinner task running. -/
theorem search_song_error_leaves_spinner_running :
    Ev.errorPanel "connection reset" ∈ error_run_trace ∧
    Ev.stopSet ∉ error_run_trace ∧
    Ev.spinnerClear ∉ error_run_trace ∧
    Ev.spinnerAwaited ∉ error_run_trace := by
  decide
